import Mathlib

/-!
Verification of the Postgres-interaction core of pg_auto_failover
(src/bin/pg_autoctl/pgsql.h): retry policy engine, connection manager,
query executor, replication slot reconciler, metadata collector and
settings checks.

The repository snapshot carries the header pgsql.h (data model, SQL text
of the settings checks, constants); the function bodies of pgsql.c are
not part of the snapshot, so each operation below that the header only
declares is modelled from the specification, with a doc comment saying
so. Machine integers are modelled as Nat; randomness is an explicit
oracle argument; the Postgres server is modelled as explicit state passed
in and out.
-/

namespace PgAutoFailover

/-! ### Constants from pgsql.h -/

def MAXCONNINFO : Nat := 1024

def NODE_ARRAY_MAX_COUNT : Nat := 12

def SQLSTATE_LENGTH : Nat := 6

def STR_ERRCODE_CLASS_CONNECTION_EXCEPTION : String := "08"

/-! ### Retry Policy Engine -/

/-- ConnectionRetryPolicy from pgsql.h: maxT is the maximum time spent
retrying (seconds), maxR the maximum number of retries (may be zero),
maxSleepTime and baseSleepTime cap and seed the per-round sleep time
(milliseconds), sleepTime is the time waited for the last round,
startTime the time of the first attempt, connectTime the time of a
successful connection, attempts the number of attempts made so far.
instr_time values are modelled as Nat instants. -/
structure ConnectionRetryPolicy where
  maxT : Nat
  maxR : Nat
  maxSleepTime : Nat
  baseSleepTime : Nat
  sleepTime : Nat
  startTime : Nat
  connectTime : Nat
  attempts : Nat
deriving DecidableEq, Repr

/-- Modelled from the spec: a value drawn uniformly from the closed
interval [lo, hi]; the random draw is an explicit oracle r reduced
modulo the interval width. -/
def randomBetween (lo hi r : Nat) : Nat :=
  lo + r % (hi - lo + 1)

/-- Modelled from the spec: pgsql_set_retry_policy stores the four
configuration parameters and resets the state for a fresh connect
cycle; the first attempt sleeps baseSleepTime. -/
def pgsql_set_retry_policy (maxT maxR maxSleepTime baseSleepTime : Nat) :
    ConnectionRetryPolicy :=
  { maxT := maxT
    maxR := maxR
    maxSleepTime := maxSleepTime
    baseSleepTime := baseSleepTime
    sleepTime := baseSleepTime
    startTime := 0
    connectTime := 0
    attempts := 0 }

/-- Modelled from the spec: pgsql_compute_connection_retry_sleep_time
implements exponential backoff with decorrelated jitter — each
subsequent attempt sleeps a value drawn uniformly from
[baseSleep, min(maxSleep, previousSleep * 3)]. -/
def pgsql_compute_connection_retry_sleep_time
    (retryPolicy : ConnectionRetryPolicy) (r : Nat) : ConnectionRetryPolicy :=
  { retryPolicy with
      sleepTime :=
        randomBetween retryPolicy.baseSleepTime
          (min retryPolicy.maxSleepTime (retryPolicy.sleepTime * 3)) r }

/-- The state of the retry policy after n rounds of sleep-time
computation, the round-k random draw being r k. -/
def retryPolicySleeps (p : ConnectionRetryPolicy) (r : Nat → Nat) :
    Nat → ConnectionRetryPolicy
  | 0 => p
  | n + 1 => pgsql_compute_connection_retry_sleep_time (retryPolicySleeps p r n) (r n)

/-- Modelled from the spec: the policy is exhausted when maxRetries > 0
and attemptCount >= maxRetries, or maxTotalTime > 0 and the time elapsed
since startTime is >= maxTotalTime. -/
def pgsql_retry_policy_expired (retryPolicy : ConnectionRetryPolicy)
    (now : Nat) : Bool :=
  if 0 < retryPolicy.maxR ∧ retryPolicy.maxR ≤ retryPolicy.attempts then
    true
  else if 0 < retryPolicy.maxT ∧ retryPolicy.maxT ≤ now - retryPolicy.startTime then
    true
  else
    false

theorem randomBetween_le (lo hi r : Nat) (h : lo ≤ hi) :
    lo ≤ randomBetween lo hi r ∧ randomBetween lo hi r ≤ hi := by
  have hm : r % (hi - lo + 1) < hi - lo + 1 := Nat.mod_lt _ (Nat.succ_pos _)
  unfold randomBetween
  omega

theorem retryPolicySleeps_params (p : ConnectionRetryPolicy) (r : Nat → Nat)
    (n : Nat) :
    (retryPolicySleeps p r n).baseSleepTime = p.baseSleepTime ∧
      (retryPolicySleeps p r n).maxSleepTime = p.maxSleepTime := by
  induction n with
  | zero => exact ⟨rfl, rfl⟩
  | succ n ih =>
    simpa [retryPolicySleeps, pgsql_compute_connection_retry_sleep_time] using ih

/-- Claim C1: for a retry policy configured with baseSleepTime B and
maxSleepTime M, B ≤ M, every sleep interval computed across a full retry
sequence lies in [B, M]; the first attempt sleeps B, and each subsequent
sleep is drawn uniformly from [B, min(M, previousSleep * 3)]. -/
theorem retry_sleep_time_bounded (maxT maxR M B : Nat) (r : Nat → Nat)
    (n : Nat) (hBM : B ≤ M) :
    (retryPolicySleeps (pgsql_set_retry_policy maxT maxR M B) r 0).sleepTime = B ∧
      B ≤ (retryPolicySleeps (pgsql_set_retry_policy maxT maxR M B) r n).sleepTime ∧
      (retryPolicySleeps (pgsql_set_retry_policy maxT maxR M B) r n).sleepTime ≤ M := by
  refine ⟨rfl, ?_⟩
  induction n with
  | zero => exact ⟨Nat.le_refl B, hBM⟩
  | succ n ih =>
    have hparams := retryPolicySleeps_params (pgsql_set_retry_policy maxT maxR M B) r n
    set q := retryPolicySleeps (pgsql_set_retry_policy maxT maxR M B) r n with hq
    have hbase : q.baseSleepTime = B := hparams.1
    have hmax : q.maxSleepTime = M := hparams.2
    have hlo : B ≤ min q.maxSleepTime (q.sleepTime * 3) := by
      have h3 : B ≤ q.sleepTime * 3 :=
        le_trans ih.1 (Nat.le_mul_of_pos_right _ (by omega))
      exact le_min (hmax ▸ hBM) h3
    have hrb := randomBetween_le B (min q.maxSleepTime (q.sleepTime * 3)) (r n) hlo
    constructor
    · simpa [retryPolicySleeps, pgsql_compute_connection_retry_sleep_time, ← hq,
        hbase] using hrb.1
    · have hub : min q.maxSleepTime (q.sleepTime * 3) ≤ M := hmax ▸ min_le_left _ _
      simpa [retryPolicySleeps, pgsql_compute_connection_retry_sleep_time, ← hq,
        hbase] using le_trans hrb.2 hub

/-- Witness for C1 at the interactive-policy shape maxT = 2, maxR = 0,
maxSleepTime = 2000, baseSleepTime = 100, after three rounds. -/
theorem retry_sleep_time_bounded_witness :
    (retryPolicySleeps (pgsql_set_retry_policy 2 0 2000 100) (fun k => k * 7919) 0).sleepTime = 100 ∧
      100 ≤ (retryPolicySleeps (pgsql_set_retry_policy 2 0 2000 100) (fun k => k * 7919) 3).sleepTime ∧
      (retryPolicySleeps (pgsql_set_retry_policy 2 0 2000 100) (fun k => k * 7919) 3).sleepTime ≤ 2000 :=
  retry_sleep_time_bounded 2 0 2000 100 (fun k => k * 7919) 3 (by decide)

/-- Claim C2: pgsql_retry_policy_expired returns true iff
(maxR > 0 and attempts ≥ maxR) or (maxT > 0 and elapsed ≥ maxT); a
policy with maxR = 0 and maxT = 0 never expires. -/
theorem retry_policy_expired_iff :
    (∀ (p : ConnectionRetryPolicy) (now : Nat),
        pgsql_retry_policy_expired p now = true ↔
          ((0 < p.maxR ∧ p.maxR ≤ p.attempts) ∨
            (0 < p.maxT ∧ p.maxT ≤ now - p.startTime))) ∧
      (∀ (maxSleepTime baseSleepTime sleepTime startTime connectTime attempts now : Nat),
        pgsql_retry_policy_expired
          ⟨0, 0, maxSleepTime, baseSleepTime, sleepTime, startTime, connectTime, attempts⟩
          now = false) := by
  constructor
  · intro p now
    by_cases h1 : 0 < p.maxR ∧ p.maxR ≤ p.attempts
    · simp [pgsql_retry_policy_expired, h1]
    · by_cases h2 : 0 < p.maxT ∧ p.maxT ≤ now - p.startTime
      · simp [pgsql_retry_policy_expired, h1, h2]
      · simp [pgsql_retry_policy_expired, h1, h2]
  · intro maxSleepTime baseSleepTime sleepTime startTime connectTime attempts now
    simp [pgsql_retry_policy_expired]

/-! ### Metadata Collector: LSN parsing and target-LSN checks -/

/-- The value of one hexadecimal digit, none for any other character. -/
def hexDigitValue (c : Char) : Option Nat :=
  if '0' ≤ c ∧ c ≤ '9' then some (c.toNat - Char.toNat '0')
  else if 'a' ≤ c ∧ c ≤ 'f' then some (c.toNat - Char.toNat 'a' + 10)
  else if 'A' ≤ c ∧ c ≤ 'F' then some (c.toNat - Char.toNat 'A' + 10)
  else none

/-- Fold hexadecimal digits left to right onto an accumulator; none as
soon as a character is not a hexadecimal digit. -/
def parseHexDigits : List Char → Nat → Option Nat
  | [], acc => some acc
  | c :: rest, acc =>
    match hexDigitValue c with
    | some d => parseHexDigits rest (acc * 16 + d)
    | none => none

/-- A nonempty all-hexadecimal string as a number. -/
def parseHex (cs : List Char) : Option Nat :=
  match cs with
  | [] => none
  | _ => parseHexDigits cs 0

/-- Split a character list on a separator character; the result always
has one more group than there are separators. -/
def splitChar (sep : Char) : List Char → List (List Char)
  | [] => [[]]
  | c :: rest =>
    if c = sep then [] :: splitChar sep rest
    else
      match splitChar sep rest with
      | [] => [[c]]
      | g :: gs => (c :: g) :: gs

/-- Modelled from the spec: parse an LSN text of the form high/low (two
hexadecimal halves separated by a slash) into its underlying 64-bit
monotonic write-ahead-log position high * 2^32 + low, none when the text
is not of that shape. -/
def parseLSN (s : String) : Option Nat :=
  match splitChar '/' s.data with
  | [hi, lo] =>
    match parseHex hi, parseHex lo with
    | some h, some l => some ((h * 2 ^ 32 + l) % 2 ^ 64)
    | _, _ => none
  | _ => none

/-- Modelled from the spec: pgsql_has_reached_target_lsn parses both
LSNs into their underlying 64-bit numeric positions and reports reached
exactly when current >= target numerically; none when either text is
malformed. -/
def pgsql_has_reached_target_lsn (targetLSN currentLSN : String) : Option Bool :=
  match parseLSN targetLSN, parseLSN currentLSN with
  | some t, some c => some (decide (t ≤ c))
  | _, _ => none

/-- Modelled from the spec: the single-slot variant performs the same
numeric parse-and-compare of the two LSNs. -/
def pgsql_one_slot_has_reached_target_lsn (targetLSN currentLSN : String) :
    Option Bool :=
  pgsql_has_reached_target_lsn targetLSN currentLSN

/-- Lexicographic text order on character lists, for contrasting the
numeric LSN comparison with a comparison of the LSN texts. -/
def lexLeChars : List Char → List Char → Bool
  | [], _ => true
  | _ :: _, [] => false
  | a :: as, b :: bs => if a = b then lexLeChars as bs else decide (a < b)

/-- Claim C3: for well-formed LSN strings the target-LSN checks compare
the parsed 64-bit positions numerically — reached iff current >= target
— and agree between the two variants; with target 0/3000000 the result
is false for current 0/2000000 and true for currents 0/3000000 and
0/4000000; the comparison is numeric, not textual, as current 0/10000000
reaches target 0/9000000 although it precedes it as text. -/
theorem has_reached_target_lsn_numeric :
    (∀ (t c : String) (tn cn : Nat), parseLSN t = some tn → parseLSN c = some cn →
        ((pgsql_has_reached_target_lsn t c = some true ↔ tn ≤ cn) ∧
          pgsql_one_slot_has_reached_target_lsn t c = pgsql_has_reached_target_lsn t c)) ∧
      pgsql_has_reached_target_lsn "0/3000000" "0/2000000" = some false ∧
      pgsql_has_reached_target_lsn "0/3000000" "0/3000000" = some true ∧
      pgsql_has_reached_target_lsn "0/3000000" "0/4000000" = some true ∧
      (pgsql_has_reached_target_lsn "0/9000000" "0/10000000" = some true ∧
        lexLeChars "0/10000000".data "0/9000000".data = true) := by
  refine ⟨?_, by decide, by decide, by decide, by decide, ?_⟩
  · intro t c tn cn ht hc
    refine ⟨?_, rfl⟩
    rw [pgsql_has_reached_target_lsn, ht, hc]
    simp
  · decide

/-- Witness for C3 at target 0/3000000 and current 0/4000000, both of
which parse. -/
theorem has_reached_target_lsn_numeric_witness :
    (pgsql_has_reached_target_lsn "0/3000000" "0/4000000" = some true ↔
        (3 * 16 ^ 6 : Nat) ≤ 4 * 16 ^ 6) ∧
      pgsql_one_slot_has_reached_target_lsn "0/3000000" "0/4000000" =
        pgsql_has_reached_target_lsn "0/3000000" "0/4000000" :=
  has_reached_target_lsn_numeric.1 "0/3000000" "0/4000000"
    (3 * 16 ^ 6) (4 * 16 ^ 6) (by decide) (by decide)

/-! ### Replication Slot Reconciler -/

/-- Modelled from the spec: the slot name derived deterministically from
a nodeId by the fixed naming scheme. -/
def replicationSlotName (nodeId : Nat) : String :=
  "pgautofailover_standby_" ++ toString nodeId

/-- The create delta of one reconciliation run: the nodes of the
required set that lack a slot on the server. -/
def slotsToCreate (required existing : List Nat) : List Nat :=
  required.filter (fun n => decide (n ∉ existing))

/-- The drop delta of one reconciliation run: the existing slots whose
owning node is not in the required set. -/
def slotsToDrop (required existing : List Nat) : List Nat :=
  existing.filter (fun n => decide (n ∉ required))

/-- What one reconciliation run did: the slots it created, the slots it
dropped, and the server's slot set afterwards. -/
structure SlotMaintenance where
  creates : List Nat
  drops : List Nat
  newSlots : List Nat
deriving DecidableEq, Repr

/-- Modelled from the spec: pgsql_replication_slot_maintain reads the
existing slot set fresh from the server, issues a create for each
required node lacking a slot and a drop for each existing slot whose
owning node is not required, leaving the server with the kept slots
followed by the created ones. -/
def pgsql_replication_slot_maintain (required existing : List Nat) :
    SlotMaintenance :=
  { creates := slotsToCreate required existing
    drops := slotsToDrop required existing
    newSlots :=
      existing.filter (fun n => decide (n ∈ required)) ++ slotsToCreate required existing }

/-- Claim C4: one reconciliation run issues exactly the two deltas — a
create for each required node without a slot and a drop for each slot
whose owner is not required; shrinking the required set from {1,2,3}
(all slotted) to {1,3} issues exactly one drop, of node 2, and no
create. -/
theorem replication_slot_maintain_deltas :
    (∀ (required existing : List Nat) (n : Nat),
        (n ∈ (pgsql_replication_slot_maintain required existing).creates ↔
          n ∈ required ∧ n ∉ existing) ∧
        (n ∈ (pgsql_replication_slot_maintain required existing).drops ↔
          n ∈ existing ∧ n ∉ required)) ∧
      (pgsql_replication_slot_maintain [1, 3] [1, 2, 3]).creates = [] ∧
      (pgsql_replication_slot_maintain [1, 3] [1, 2, 3]).drops = [2] := by
  refine ⟨?_, by decide, by decide⟩
  intro required existing n
  constructor
  · simp [pgsql_replication_slot_maintain, slotsToCreate, List.mem_filter]
  · simp [pgsql_replication_slot_maintain, slotsToDrop, List.mem_filter]

/-- Claim C5: reconciliation is idempotent — running it again with the
required set unchanged, on the slot set the first run left behind,
issues zero creates and zero drops. -/
theorem replication_slot_maintain_idempotent (required existing : List Nat) :
    (pgsql_replication_slot_maintain required
        (pgsql_replication_slot_maintain required existing).newSlots).creates = [] ∧
      (pgsql_replication_slot_maintain required
        (pgsql_replication_slot_maintain required existing).newSlots).drops = [] := by
  constructor
  · rw [pgsql_replication_slot_maintain]
    simp only [slotsToCreate, List.filter_eq_nil_iff]
    intro n hn
    simp only [pgsql_replication_slot_maintain, decide_eq_true_eq, Decidable.not_not]
    by_cases hex : n ∈ existing
    · exact List.mem_append_left _ (List.mem_filter.mpr ⟨hex, by simpa using hn⟩)
    · exact List.mem_append_right _
        (List.mem_filter.mpr ⟨hn, by simpa using hex⟩)
  · rw [pgsql_replication_slot_maintain]
    simp only [slotsToDrop, List.filter_eq_nil_iff]
    intro n hn
    simp only [pgsql_replication_slot_maintain] at hn
    simp only [decide_eq_true_eq, Decidable.not_not]
    rcases List.mem_append.mp hn with hkeep | hnew
    · have := (List.mem_filter.mp hkeep).2
      simpa using this
    · have hmem : n ∈ required.filter (fun m => decide (m ∉ existing)) := by
        simpa [slotsToCreate] using hnew
      exact (List.mem_filter.mp hmem).1

/-! ### Query Executor: results and the single-value decoder -/

/-- QueryResultType from pgsql.h. -/
inductive QueryResultType
  | PGSQL_RESULT_BOOL
  | PGSQL_RESULT_INT
  | PGSQL_RESULT_BIGINT
  | PGSQL_RESULT_STRING
deriving DecidableEq, Repr

/-- A query result as the decoder sees it: the rows, each a list of
column text values. -/
structure PGresult where
  rows : List (List String)
deriving DecidableEq, Repr

/-- PQntuples: the number of rows of a result. -/
def PQntuples (result : PGresult) : Nat :=
  result.rows.length

/-- PQgetvalue: the text of one cell of a result. -/
def PQgetvalue (result : PGresult) (row col : Nat) : String :=
  (result.rows.getD row []).getD col ""

/-- SingleValueResultContext from pgsql.h: the SQLSTATE of the last
execution, the declared expected kind, the parsed-ok flag and the four
typed output fields. -/
structure SingleValueResultContext where
  sqlstate : String
  resultType : QueryResultType
  parsedOk : Bool
  boolVal : Bool
  intVal : Int
  bigint : Nat
  strVal : String
deriving DecidableEq, Repr

/-- A Postgres boolean text value: t or f, anything else is not of
boolean kind. -/
def parseBoolValue (v : String) : Option Bool :=
  if v = "t" then some true else if v = "f" then some false else none

/-- Fold decimal digits left to right onto an accumulator; none as soon
as a character is not a decimal digit. -/
def parseDecDigits : List Char → Nat → Option Nat
  | [], acc => some acc
  | c :: rest, acc =>
    if '0' ≤ c ∧ c ≤ '9' then parseDecDigits rest (acc * 10 + (c.toNat - Char.toNat '0'))
    else none

/-- A nonempty all-decimal string as a number. -/
def parseNatValue (v : String) : Option Nat :=
  match v.data with
  | [] => none
  | _ => parseDecDigits v.data 0

/-- A decimal integer text value with an optional leading minus sign. -/
def parseIntValue (v : String) : Option Int :=
  match v.data with
  | '-' :: rest =>
    match rest with
    | [] => none
    | _ => (parseDecDigits rest 0).map (fun n => -(n : Int))
  | _ => (parseNatValue v).map (fun n => (n : Int))

/-- Whether a cell text is of the declared expected kind. -/
def valueMatchesKind (resultType : QueryResultType) (v : String) : Bool :=
  match resultType with
  | .PGSQL_RESULT_BOOL => (parseBoolValue v).isSome
  | .PGSQL_RESULT_INT => (parseIntValue v).isSome
  | .PGSQL_RESULT_BIGINT => (parseNatValue v).isSome
  | .PGSQL_RESULT_STRING => true

/-- Modelled from the spec: parseSingleValueResult reads row 0, column 0
according to the context's declared expected kind; it sets
parsedOk = false, without crashing, when the result has zero rows, more
than one row, or a value of the wrong kind, and never partially
populates the typed value on a failed parse. -/
def parseSingleValueResult (context : SingleValueResultContext)
    (result : PGresult) : SingleValueResultContext :=
  if PQntuples result = 1 then
    let value := PQgetvalue result 0 0
    match context.resultType with
    | .PGSQL_RESULT_BOOL =>
      match parseBoolValue value with
      | some b => { context with boolVal := b, parsedOk := true }
      | none => { context with parsedOk := false }
    | .PGSQL_RESULT_INT =>
      match parseIntValue value with
      | some i => { context with intVal := i, parsedOk := true }
      | none => { context with parsedOk := false }
    | .PGSQL_RESULT_BIGINT =>
      match parseNatValue value with
      | some n => { context with bigint := n % 2 ^ 64, parsedOk := true }
      | none => { context with parsedOk := false }
    | .PGSQL_RESULT_STRING => { context with strVal := value, parsedOk := true }
  else { context with parsedOk := false }

/-- Claim C6: on a result with zero rows, more than one row, or a value
of a kind other than the declared expected kind, the single-value
decoder sets parsedOk = false and leaves every typed output field
(boolVal, intVal, bigint, strVal) unmodified. -/
theorem parseSingleValueResult_failure_frame
    (context : SingleValueResultContext) (result : PGresult)
    (h : PQntuples result ≠ 1 ∨
      valueMatchesKind context.resultType (PQgetvalue result 0 0) = false) :
    (parseSingleValueResult context result).parsedOk = false ∧
      (parseSingleValueResult context result).boolVal = context.boolVal ∧
      (parseSingleValueResult context result).intVal = context.intVal ∧
      (parseSingleValueResult context result).bigint = context.bigint ∧
      (parseSingleValueResult context result).strVal = context.strVal := by
  rcases h with h | h
  · simp [parseSingleValueResult, h]
  · by_cases hn : PQntuples result = 1
    · cases ht : context.resultType <;>
        simp only [parseSingleValueResult, hn, if_pos, ht] <;>
        [skip; skip; skip; (simp [valueMatchesKind, ht] at h)] <;>
        [cases hb : parseBoolValue (PQgetvalue result 0 0);
          cases hb : parseIntValue (PQgetvalue result 0 0);
          cases hb : parseNatValue (PQgetvalue result 0 0)] <;>
        simp_all [valueMatchesKind]
    · simp [parseSingleValueResult, hn]

/-- Witness for C6: a two-row boolean result against a context expecting
one row sets parsedOk = false and leaves the typed outputs unmodified. -/
theorem parseSingleValueResult_failure_frame_witness :
    (parseSingleValueResult
        ⟨"00000", .PGSQL_RESULT_BOOL, true, true, 7, 9, "x"⟩
        ⟨[["t"], ["f"]]⟩).parsedOk = false ∧
      (parseSingleValueResult
        ⟨"00000", .PGSQL_RESULT_BOOL, true, true, 7, 9, "x"⟩
        ⟨[["t"], ["f"]]⟩).boolVal = true ∧
      (parseSingleValueResult
        ⟨"00000", .PGSQL_RESULT_BOOL, true, true, 7, 9, "x"⟩
        ⟨[["t"], ["f"]]⟩).intVal = 7 ∧
      (parseSingleValueResult
        ⟨"00000", .PGSQL_RESULT_BOOL, true, true, 7, 9, "x"⟩
        ⟨[["t"], ["f"]]⟩).bigint = 9 ∧
      (parseSingleValueResult
        ⟨"00000", .PGSQL_RESULT_BOOL, true, true, 7, 9, "x"⟩
        ⟨[["t"], ["f"]]⟩).strVal = "x" :=
  parseSingleValueResult_failure_frame
    ⟨"00000", .PGSQL_RESULT_BOOL, true, true, 7, 9, "x"⟩
    ⟨[["t"], ["f"]]⟩ (Or.inl (by decide))

/-! ### Query Executor: error reporting and classification -/

/-- The server's response to one statement execution, as the executor
sees it through the client library: either a result, or an error carrying
a five-character SQLSTATE. -/
inductive PGExecStatus
  | commandOk (rows : List (List String))
  | serverError (sqlstate : String)
deriving DecidableEq, Repr

/-- The outcome pgsql_execute_with_params reports to its caller. -/
inductive ExecOutcome
  | success
  | connectionError (sqlstate : String)
  | dataError (sqlstate : String)
deriving DecidableEq, Repr

/-- The class of a SQLSTATE: its first two characters. -/
def sqlstateClass (sqlstate : String) : String :=
  String.mk (sqlstate.data.take 2)

/-- Whether a SQLSTATE belongs to the connection exception class 08. -/
def sqlstateIsConnectionClass (sqlstate : String) : Bool :=
  decide (sqlstateClass sqlstate = STR_ERRCODE_CLASS_CONNECTION_EXCEPTION)

/-- Modelled from the spec: pgsql_execute_with_params invokes the
single-value decoder exactly once on a successful result; on a failing
execution it stores the SQLSTATE in the result context and reports a
connection-class error (SQLSTATE class 08) distinctly from every
data-level error. -/
def pgsql_execute_with_params (response : PGExecStatus)
    (context : SingleValueResultContext) :
    ExecOutcome × SingleValueResultContext :=
  match response with
  | .commandOk rows => (.success, parseSingleValueResult context ⟨rows⟩)
  | .serverError sqlstate =>
    if sqlstateIsConnectionClass sqlstate then
      (.connectionError sqlstate, { context with sqlstate := sqlstate })
    else
      (.dataError sqlstate, { context with sqlstate := sqlstate })

/-- Claim C9: every failing execution is reported as a connection-class
outcome exactly when its SQLSTATE is of class 08 and as a data-level
outcome exactly otherwise; the two outcome kinds are distinct for every
pair of SQLSTATEs, and the SQLSTATE is carried in the result context, so
the caller decides reconnect versus application error from the reported
outcome alone. -/
theorem execute_error_classification :
    (∀ (sqlstate : String) (context : SingleValueResultContext),
        ((pgsql_execute_with_params (.serverError sqlstate) context).1 =
            ExecOutcome.connectionError sqlstate ↔
          sqlstateClass sqlstate = STR_ERRCODE_CLASS_CONNECTION_EXCEPTION) ∧
        ((pgsql_execute_with_params (.serverError sqlstate) context).1 =
            ExecOutcome.dataError sqlstate ↔
          sqlstateClass sqlstate ≠ STR_ERRCODE_CLASS_CONNECTION_EXCEPTION) ∧
        (pgsql_execute_with_params (.serverError sqlstate) context).2.sqlstate =
          sqlstate) ∧
      (∀ s1 s2 : String, ExecOutcome.connectionError s1 ≠ ExecOutcome.dataError s2) := by
  constructor
  · intro sqlstate context
    by_cases h : sqlstateClass sqlstate = STR_ERRCODE_CLASS_CONNECTION_EXCEPTION
    · simp [pgsql_execute_with_params, sqlstateIsConnectionClass, h]
    · simp [pgsql_execute_with_params, sqlstateIsConnectionClass, h]
  · intro s1 s2
    exact fun hcontra => ExecOutcome.noConfusion hcontra

/-! ### Connection Manager -/

/-- PGConnStatus from pgsql.h. -/
inductive PGConnStatus
  | PG_CONNECTION_UNKNOWN
  | PG_CONNECTION_OK
  | PG_CONNECTION_BAD
deriving DecidableEq, Repr

/-- ConnectionType from pgsql.h. -/
inductive ConnectionType
  | PGSQL_CONN_LOCAL
  | PGSQL_CONN_MONITOR
  | PGSQL_CONN_COORDINATOR
  | PGSQL_CONN_UPSTREAM
  | PGSQL_CONN_APP
deriving DecidableEq, Repr

/-- The PGSQL connection state from pgsql.h, restricted to the fields
the connection manager reads and writes when establishing a
connection. -/
structure PGSQL where
  connectionType : ConnectionType
  connectionString : String
  status : PGConnStatus
deriving DecidableEq, Repr

/-- Modelled from the spec: validate_connection_string validates the URL
length, rejecting an oversized URI, one whose length exceeds MAXCONNINFO,
before any network attempt (the further shape validation performed by the
client library is not modelled). -/
def validate_connection_string (connectionString : String) : Bool :=
  decide (connectionString.length ≤ MAXCONNINFO)

/-- Modelled from the spec: one connect attempt validates the connection
string first and fails fast on an invalid one — no network attempt, no
state change; otherwise it makes one network attempt, whose success is
the oracle argument, and sets the status accordingly. The Nat result
counts the network attempts made. -/
def pgsql_connect (pgsql : PGSQL) (attemptSucceeds : Bool) :
    Bool × PGSQL × Nat :=
  if validate_connection_string pgsql.connectionString then
    if attemptSucceeds then
      (true, { pgsql with status := .PG_CONNECTION_OK }, 1)
    else
      (false, { pgsql with status := .PG_CONNECTION_BAD }, 1)
  else
    (false, pgsql, 0)

/-- Claim C7: a connection string longer than MAXCONNINFO (1024) is
rejected with an immediate failure before any network attempt, the
connection state left unchanged. -/
theorem oversized_connection_string_rejected (pgsql : PGSQL)
    (attemptSucceeds : Bool) (h : MAXCONNINFO < pgsql.connectionString.length) :
    pgsql_connect pgsql attemptSucceeds = (false, pgsql, 0) := by
  have hv : validate_connection_string pgsql.connectionString = false := by
    simp [validate_connection_string]
    omega
  simp [pgsql_connect, hv]

set_option maxRecDepth 8000 in
/-- Witness for C7: a connection string of 1025 characters, exactly one
over the limit, is rejected with no network attempt and no state
change. -/
theorem oversized_connection_string_rejected_witness :
    pgsql_connect
        ⟨.PGSQL_CONN_MONITOR, String.mk (List.replicate 1025 (Char.ofNat 97)),
          .PG_CONNECTION_UNKNOWN⟩ true =
      (false,
        ⟨.PGSQL_CONN_MONITOR, String.mk (List.replicate 1025 (Char.ofNat 97)),
          .PG_CONNECTION_UNKNOWN⟩, 0) :=
  oversized_connection_string_rejected
    ⟨.PGSQL_CONN_MONITOR, String.mk (List.replicate 1025 (Char.ofNat 97)),
      .PG_CONNECTION_UNKNOWN⟩ true (by decide)

/-! ### Settings / Capability Checks

CHECK__SETTINGS_SQL of pgsql.h builds one row per checked setting and
aggregates them with bool_and; CHECK_CITUS_NODE_SETTINGS_SQL appends one
more row that tests whether the first entry, at ordinality 1, of
shared_preload_libraries extended with the sentinel element not-citus,
is citus. The Postgres evaluation of that SQL is embedded below:
string_to_array of the empty string is the empty array, unnest with
ordinality numbers the array elements from 1. -/

/-- The server settings CHECK__SETTINGS_SQL reads. Values are carried as
current_setting renders them: the two capacities as integers, the rest
as text. -/
structure PostgresSettings where
  max_wal_senders : Int
  max_replication_slots : Int
  wal_level : String
  wal_log_hints : String
  shared_preload_libraries : String
deriving DecidableEq, Repr

/-- The bool_and aggregate of the rows of the check query. -/
def bool_and (rows : List Bool) : Bool :=
  rows.all (fun b => b)

/-- The four rows of CHECK__SETTINGS_SQL, one Bool per branch of the
union: max_wal_senders >= 12, max_replication_slots >= 12, wal_level in
(replica, logical), wal_log_hints = on. -/
def check_settings_rows (s : PostgresSettings) : List Bool :=
  [decide (12 ≤ s.max_wal_senders),
    decide (12 ≤ s.max_replication_slots),
    decide (s.wal_level = "replica" ∨ s.wal_level = "logical"),
    decide (s.wal_log_hints = "on")]

/-- Postgres string_to_array with a one-character separator: the empty
string yields the empty array. -/
def string_to_array (s : String) (sep : Char) : List String :=
  if s = "" then [] else (splitChar sep s.data).map (fun g => String.mk g)

/-- Postgres unnest ... with ordinality: the elements paired with their
ordinal position, counted from n. -/
def with_ordinality : List String → Nat → List (String × Nat)
  | [], _ => []
  | x :: rest, n => (x, n) :: with_ordinality rest (n + 1)

/-- The rows the where n = 1 selection of CHECK_CITUS_NODE_SETTINGS_SQL
keeps: the ordinality-1 elements of shared_preload_libraries split on
commas and extended with the sentinel element not-citus. -/
def citus_preload_rows (sharedPreloadLibraries : String) : List (String × Nat) :=
  (with_ordinality (string_to_array sharedPreloadLibraries ',' ++ ["not citus"]) 1).filter
    (fun p => decide (p.2 = 1))

/-- The first entry of the sentinel-extended preload library list. -/
def first_preload_library (sharedPreloadLibraries : String) : String :=
  (string_to_array sharedPreloadLibraries ',' ++ ["not citus"]).headD "not citus"

/-- CHECK_POSTGRESQL_NODE_SETTINGS_SQL: bool_and over the four setting
rows. -/
def CHECK_POSTGRESQL_NODE_SETTINGS (s : PostgresSettings) : Bool :=
  bool_and (check_settings_rows s)

/-- CHECK_CITUS_NODE_SETTINGS_SQL: bool_and over the four setting rows
and the lib = citus test of each ordinality-1 preload row. -/
def CHECK_CITUS_NODE_SETTINGS (s : PostgresSettings) : Bool :=
  bool_and (check_settings_rows s ++
    (citus_preload_rows s.shared_preload_libraries).map (fun p => decide (p.1 = "citus")))

/-- Modelled from the spec: pgsql_check_postgresql_settings runs the
Citus variant of the settings-check query for a Citus instance kind and
the plain variant otherwise; the query only reads current_setting, so
the server settings come back unchanged. -/
def pgsql_check_postgresql_settings (s : PostgresSettings)
    (isCitusInstanceKind : Bool) : Bool × PostgresSettings :=
  ((if isCitusInstanceKind then CHECK_CITUS_NODE_SETTINGS s
    else CHECK_POSTGRESQL_NODE_SETTINGS s), s)

theorem with_ordinality_filter_past_one (l : List String) (n : Nat) (h : 2 ≤ n) :
    (with_ordinality l n).filter (fun p => decide (p.2 = 1)) = [] := by
  induction l generalizing n with
  | nil => rfl
  | cons x rest ih =>
    have hne : ¬ (n = 1) := by omega
    simp only [with_ordinality, List.filter_cons, decide_eq_true_eq, hne, if_false]
    exact ih (n + 1) (by omega)

theorem citus_preload_rows_eq (sharedPreloadLibraries : String) :
    citus_preload_rows sharedPreloadLibraries =
      [(first_preload_library sharedPreloadLibraries, 1)] := by
  unfold citus_preload_rows first_preload_library
  cases harr : string_to_array sharedPreloadLibraries ',' with
  | nil => rfl
  | cons x rest =>
    have hrest := with_ordinality_filter_past_one (rest ++ ["not citus"]) 2 (by omega)
    simp [with_ordinality, hrest]

/-- Claim C8: pgsql_check_postgresql_settings reports settings OK iff
max_wal_senders >= 12, max_replication_slots >= 12, wal_level is replica
or logical, wal_log_hints is on and, when checking a Citus instance
kind, citus is the first entry of shared_preload_libraries; the server
settings come back unchanged. -/
theorem check_postgresql_settings_iff (s : PostgresSettings)
    (isCitusInstanceKind : Bool) :
    ((pgsql_check_postgresql_settings s isCitusInstanceKind).1 = true ↔
        (12 ≤ s.max_wal_senders ∧ 12 ≤ s.max_replication_slots ∧
          (s.wal_level = "replica" ∨ s.wal_level = "logical") ∧
          s.wal_log_hints = "on" ∧
          (isCitusInstanceKind = true →
            first_preload_library s.shared_preload_libraries = "citus"))) ∧
      (pgsql_check_postgresql_settings s isCitusInstanceKind).2 = s := by
  refine ⟨?_, rfl⟩
  cases isCitusInstanceKind with
  | false =>
    simp [pgsql_check_postgresql_settings, CHECK_POSTGRESQL_NODE_SETTINGS,
      bool_and, check_settings_rows, and_assoc]
  | true =>
    simp [pgsql_check_postgresql_settings, CHECK_CITUS_NODE_SETTINGS,
      bool_and, check_settings_rows, citus_preload_rows_eq, and_assoc]

/-- Claim C10: the where n = 1 selection of CHECK_CITUS_NODE_SETTINGS_SQL
yields exactly one row for every shared_preload_libraries value — the
appended sentinel element not-citus keeps it nonempty — so an empty
preload list makes the whole check false instead of dropping the
condition from the bool_and aggregate. -/
theorem citus_preload_sentinel :
    (∀ sharedPreloadLibraries : String,
        (citus_preload_rows sharedPreloadLibraries).length = 1) ∧
      (∀ (mws mrs : Int) (wl wlh : String),
        CHECK_CITUS_NODE_SETTINGS ⟨mws, mrs, wl, wlh, ""⟩ = false) := by
  constructor
  · intro sharedPreloadLibraries
    rw [citus_preload_rows_eq]
    rfl
  · intro mws mrs wl wlh
    simp [CHECK_CITUS_NODE_SETTINGS, bool_and, citus_preload_rows_eq,
      first_preload_library, string_to_array]

end PgAutoFailover
